import Mathlib

/-!
Shallow embedding of the adaptive data-collection agent
(`eddie_schwasnick_ai_agent_assignment/agent/data_collection_agent.py`).

Python floats are modelled as rationals (`ℚ`); Python ints as `ℤ`/`ℕ`;
Python dict values as a tagged scalar variant `Value`; a record (dict)
as an association list from field name to `Value`.  The SHA-256 digest
used for deduplication is not computed bit-for-bit: the store operation
is parametrised over an arbitrary digest function `String → String`, so
every theorem proved for all digest functions holds in particular for
SHA-256.
-/

namespace Agent

/-- A Python scalar value as it appears in a record dict:
`None`, a string, an int, or a bool. -/
inductive Value where
  | none
  | str (s : String)
  | int (n : Int)
  | bool (b : Bool)
  deriving DecidableEq, Repr

/-- Python `str(v)` on a scalar value (as used when building the dedupe key). -/
def pyStr : Value → String
  | Value.none => "None"
  | Value.str s => s
  | Value.int n => toString n
  | Value.bool b => if b then "True" else "False"

/-- Python `int(v)` on a scalar value, `Option.none` when `int()` would raise.
Strings go through decimal parsing (`String.toInt?`). -/
def pyInt : Value → Option Int
  | Value.none => Option.none
  | Value.str s => s.toInt?
  | Value.int n => some n
  | Value.bool b => some (if b then 1 else 0)

/-- A record: a Python dict field-name → scalar, as an association list. -/
def Record := List (String × Value)

/-- Python `d.get(k)`: the value at the first binding of `k`,
`Option.none` when the key is absent. -/
def dictGet : List (String × Value) → String → Option Value
  | [], _ => Option.none
  | p :: rest, k => if p.1 = k then some p.2 else dictGet rest k

/-- Python `d.get(k, dflt)`. -/
def dictGetD (d : List (String × Value)) (k : String) (dflt : Value) : Value :=
  (dictGet d k).getD dflt

/-- Python `d[k] = v`: replace the first binding of `k`, else append. -/
def dictSet (d : List (String × Value)) (k : String) (v : Value) :
    List (String × Value) :=
  match d with
  | [] => [(k, v)]
  | p :: rest => if p.1 = k then (k, v) :: rest else p :: dictSet rest k v

/-- `rec.get(f) not in (None, "")`: the field is present and neither
Python `None` nor the empty string (missing key ⇒ `dict.get` gives `None`). -/
def fieldOk (rec : Record) (f : String) : Bool :=
  match dictGet rec f with
  | Option.none => false
  | some v => v ≠ Value.none ∧ v ≠ Value.str ""

/-- `all(rec.get(f) not in (None, "") for f in required)`. -/
def recordValid (required : List String) (rec : Record) : Bool :=
  required.all (fun f => fieldOk rec f)

-- -------------------------
-- (4) ADAPTIVE STRATEGY: the pacing-multiplier update of `adjust_strategy`
-- -------------------------

/-- The `delay_multiplier` update performed by `adjust_strategy` for a given
success rate `sr` (the fallback side effect is modelled separately by
`adjust_strategy_full`). -/
def adjust_strategy (sr m : ℚ) : ℚ :=
  if sr < 1/2 then min 8 (m * 2)
  else if sr < 4/5 then min 4 (m * (3/2))
  else if sr > 9/10 then max (1/2) (m * (4/5))
  else m

/-- `get_success_rate`: `successful_requests / total_requests`, 0.0 when
`total_requests` is 0. -/
def get_success_rate (total successful : ℕ) : ℚ :=
  if total = 0 then 0 else (successful : ℚ) / (total : ℚ)

/-- The inline positive-feedback step of `collect_data` (runs only when
`success_rate ≥ 0.8`; a further `> 0.9` check gates the 0.9× decay). -/
def inline_feedback (sr m : ℚ) : ℚ :=
  if sr > 9/10 then max (1/2) (m * (9/10)) else m

/-- `check_rate_limits`: the multiplier escalation when the parsed
`…ratelimit-remaining` header value (if any) is below 2.  The header scan
and float parse are abstracted into the `remaining : Option ℚ` argument. -/
def check_rate_limits (remaining : Option ℚ) (m : ℚ) : ℚ :=
  match remaining with
  | Option.none => m
  | some r => if r < 2 then min 8 (m * (3/2)) else m

-- -------------------------
-- (3) DATA QUALITY
-- -------------------------

/-- `check_completeness`: fraction of stored records with all required
fields present and non-empty, denominator clamped to at least 1. -/
def check_completeness (required : List String) (store : List Record) : ℚ :=
  ((store.countP (fun r => recordValid required r) : ℚ)) /
    max 1 (store.length : ℚ)

/-- One character of a ticker passes the accuracy check:
`ch.isalnum() or ch in ".-"`. -/
def tickerCharOk (c : Char) : Bool :=
  c.isAlphanum || c = '.' || c = '-'

/-- The per-record accuracy predicate of `check_accuracy`: ticker and name
(string-converted, defaulting to `""`) non-empty and every ticker character
alphanumeric or in `.-`. -/
def accuracyOk (rec : Record) : Bool :=
  let ticker := pyStr (dictGetD rec "ticker" (Value.str ""))
  let name := pyStr (dictGetD rec "name" (Value.str ""))
  ticker ≠ "" && name ≠ "" && ticker.all tickerCharOk

/-- `check_accuracy`: fraction of stored records passing `accuracyOk`. -/
def check_accuracy (store : List Record) : ℚ :=
  ((store.countP accuracyOk : ℚ)) / max 1 (store.length : ℚ)

/-- Python `isinstance(v, str)` on a scalar value. -/
def isStr : Value → Bool
  | Value.str _ => true
  | _ => false

/-- The per-record consistency predicate of `check_consistency`:
`rec.get("ticker", "")` and `rec.get("name", "")` are strings. -/
def consistencyOk (rec : Record) : Bool :=
  isStr (dictGetD rec "ticker" (Value.str "")) &&
    isStr (dictGetD rec "name" (Value.str ""))

/-- `check_consistency`: fraction of stored records passing `consistencyOk`. -/
def check_consistency (store : List Record) : ℚ :=
  ((store.countP consistencyOk : ℚ)) / max 1 (store.length : ℚ)

/-- `check_timeliness`: always 1.0 for this static reference-data endpoint. -/
def check_timeliness : ℚ := 1

/-- `assess_data_quality`: 0.0 on an empty store, otherwise the unweighted
mean of the four metrics. -/
def assess_data_quality (required : List String) (store : List Record) : ℚ :=
  if store.isEmpty then 0
  else
    (check_completeness required store + check_accuracy store +
      check_consistency store + check_timeliness) / 4

-- -------------------------
-- (2) VALIDATION (`validate_data`)
-- -------------------------

/-- Number of records in a batch with all required fields present and
non-empty. -/
def validCount (required : List String) (batch : List Record) : ℕ :=
  batch.countP (fun r => recordValid required r)

/-- `validate_data`: accept the batch iff
`valid / max(1, len(batch)) >= 0.6`. -/
def validate_data (required : List String) (batch : List Record) : Bool :=
  decide ((3/5 : ℚ) ≤ (validCount required batch : ℚ) /
    max 1 (batch.length : ℚ))

/-- Spec-side reading of C4's acceptance criterion, taken from the claim's
words: at least 60% of the batch's records have all required fields present
and non-empty, i.e. `0.6 · length ≤ validCount` over the rationals. -/
def atLeastSixtyPercentValid (required : List String)
    (batch : List Record) : Prop :=
  (3/5 : ℚ) * (batch.length : ℚ) ≤ (validCount required batch : ℚ)

-- -------------------------
-- (2) STORAGE (`store_data`)
-- -------------------------

/-- The dedupe key of a record: the pipe-joined string values of the
configured key fields (`"|".join(str(rec.get(k, "")) for k in key_fields)`). -/
def dedupeKey (keyFields : List String) (rec : Record) : String :=
  String.intercalate "|"
    (keyFields.map (fun k => pyStr (dictGetD rec k (Value.str ""))))

/-- One iteration of the `store_data` loop on state
(seen digest set, record store): skip the record when its digest was seen,
else register the digest and append the record.  `digest` abstracts
`hashlib.sha256(key.encode()).hexdigest()`; theorems quantify over it. -/
def store_step (digest : String → String) (keyFields : List String)
    (st : List String × List Record) (rec : Record) :
    List String × List Record :=
  if digest (dedupeKey keyFields rec) ∈ st.1 then st
  else (digest (dedupeKey keyFields rec) :: st.1, st.2 ++ [rec])

/-- `store_data`: fold the batch through `store_step`. -/
def store_data (digest : String → String) (keyFields : List String)
    (st : List String × List Record) (batch : List Record) :
    List String × List Record :=
  batch.foldl (store_step digest keyFields) st

/-- The (seen digests, record store) state after a sequence of `store_data`
calls, starting from the agent's initial empty state. -/
def runStore (digest : String → String) (keyFields : List String)
    (batches : List (List Record)) : List String × List Record :=
  batches.foldl (store_data digest keyFields) ([], [])

/-- The digest-uniqueness invariant of the record store: the stored
records' dedupe digests are pairwise distinct, and every stored record's
digest is registered in the seen set. -/
def StoreInv (digest : String → String) (keyFields : List String)
    (st : List String × List Record) : Prop :=
  (st.2.map (fun r => digest (dedupeKey keyFields r))).Nodup ∧
    ∀ r ∈ st.2, digest (dedupeKey keyFields r) ∈ st.1

-- -------------------------
-- (2) FETCHING (`make_api_request`)
-- -------------------------

/-- The request counters of `collection_stats` touched by
`make_api_request`. -/
structure Stats where
  total_requests : ℕ
  successful_requests : ℕ
  failed_requests : ℕ
  pages_fetched : ℕ
  deriving DecidableEq, Repr

/-- The initial `collection_stats` counters. -/
def initStats : Stats := ⟨0, 0, 0, 0⟩

/-- A parsed response body: the `results` list and the optional
continuation `next_url`. -/
structure Payload where
  results : List Record
  next_url : Option String

/-- The outcome of one HTTP attempt: a 429 status, another non-2xx status
(`raise_for_status` raising `RequestException`), a transport error, a 2xx
status whose body fails JSON parsing (`resp.json()` raising
`JSONDecodeError`, a `RequestException` subclass, caught by the handler
after `successful_requests` was already incremented), or a 2xx success
with its parsed body. -/
inductive Outcome where
  | http429
  | httpError
  | transportError
  | successBadJson
  | success (payload : Payload)

/-- Whether an attempt outcome is one of the plain failures: 429, another
non-2xx status, or a transport error. -/
def Outcome.isFailure : Outcome → Bool
  | Outcome.http429 => true
  | Outcome.httpError => true
  | Outcome.transportError => true
  | _ => false

/-- The retry loop of `make_api_request` over the attempts' outcomes:
every plain failed attempt (429, other non-2xx, transport error)
increments `failed_requests` once; a 2xx response whose body fails JSON
parsing increments `successful_requests` first and then, in the exception
handler, `failed_requests`, and the loop continues; a full success
increments `successful_requests` and `pages_fetched` and returns the
parsed body; an exhausted list returns no data.  (The sleeps, the cursor
capture and the header snapshot carry no counter effect and are omitted
here.) -/
def run_attempts : List Outcome → Stats → Stats × Option Payload
  | [], s => (s, Option.none)
  | Outcome.http429 :: rest, s =>
      run_attempts rest { s with failed_requests := s.failed_requests + 1 }
  | Outcome.httpError :: rest, s =>
      run_attempts rest { s with failed_requests := s.failed_requests + 1 }
  | Outcome.transportError :: rest, s =>
      run_attempts rest { s with failed_requests := s.failed_requests + 1 }
  | Outcome.successBadJson :: rest, s =>
      run_attempts rest
        { s with successful_requests := s.successful_requests + 1,
                 failed_requests := s.failed_requests + 1 }
  | Outcome.success p :: _, s =>
      ({ s with successful_requests := s.successful_requests + 1,
                pages_fetched := s.pages_fetched + 1 }, some p)

/-- `make_api_request`: increment `total_requests` once, then run at most
`tries` attempts against the environment's outcome list. -/
def make_api_request (tries : ℕ) (outcomes : List Outcome) (s : Stats) :
    Stats × Option Payload :=
  run_attempts (outcomes.take tries) { s with total_requests := s.total_requests + 1 }

/-- The stats after a sequence of `make_api_request` calls (each with its
try budget and its attempts' outcomes), from the initial counters. -/
def runRequests (calls : List (ℕ × List Outcome)) : Stats :=
  calls.foldl (fun st c => (make_api_request c.1 c.2 st).1) initStats

-- -------------------------
-- (4) FALLBACK (`try_fallback_api`) and configuration
-- -------------------------

/-- The configuration dict after `load_config` has filled the defaults
(the credential and output paths are out of scope). -/
structure Config where
  base_url : String
  endpoint : String
  params : List (String × Value)
  max_pages : ℕ
  target_records : ℕ
  base_delay : ℚ
  retry_tries : ℕ
  retry_backoff : ℚ
  required_fields : List String
  fields_to_keep : List String
  dedupe_key_fields : List String
  respect_rpm : ℚ

/-- `try_fallback_api`: a no-op unless the endpoint is
`/v3/reference/tickers`; in that case rewrite the endpoint to the same
value and set `params["limit"] = max(25, int(params.get("limit", 100)) // 2)`
(Python `//` is floor division).  `Option.none` models `int()` raising on
an unparsable limit value. -/
def try_fallback_api (cfg : Config) : Option Config :=
  if cfg.endpoint ≠ "/v3/reference/tickers" then some cfg
  else
    match pyInt (dictGetD cfg.params "limit" (Value.int 100)) with
    | some n =>
        some { cfg with
                endpoint := "/v3/reference/tickers",
                params := dictSet cfg.params "limit"
                  (Value.int (max 25 (Int.fdiv n 2))) }
    | Option.none => Option.none

/-- `adjust_strategy` with its side effect: the multiplier update together
with the configuration left behind (`try_fallback_api` runs only in the
`sr < 0.5` branch). -/
def adjust_strategy_full (sr m : ℚ) (cfg : Config) : ℚ × Option Config :=
  (adjust_strategy sr m, if sr < 1/2 then try_fallback_api cfg else some cfg)

-- -------------------------
-- (5) RESPECTFUL PACING (`respectful_delay`)
-- -------------------------

/-- `min_delay_from_rpm = max(60.0 / max(rpm, 0.1), 0.5)`. -/
def min_delay_from_rpm (rpm : ℚ) : ℚ :=
  max (60 / max rpm (1/10)) (1/2)

/-- The pre-jitter delay of `respectful_delay`:
`max(base_delay, min_delay_from_rpm) * delay_multiplier`. -/
def pre_jitter_delay (rpm base_delay m : ℚ) : ℚ :=
  max base_delay (min_delay_from_rpm rpm) * m

/-- `final_sleep = delay * jitter`; the uniform draw from `[0.8, 1.3]` is
abstracted into the `jitter` argument. -/
def final_sleep (rpm base_delay m jitter : ℚ) : ℚ :=
  pre_jitter_delay rpm base_delay m * jitter

/-- Spec-side reading of C8's pre-jitter formula, taken from the claim's
words: `max(base_delay, max(60/rpm, 0.5)) * m` — with no clamp of the rpm
budget at 0.1. -/
def claimed_pre_jitter_delay (rpm base_delay m : ℚ) : ℚ :=
  max base_delay (max (60 / rpm) (1/2)) * m

/-- A 5-record batch in which exactly 3 records carry both fields a, b. -/
def batchThreeOfFive : List Record :=
  [[("a", Value.str "x"), ("b", Value.str "y")],
   [("a", Value.str "x"), ("b", Value.str "y")],
   [("a", Value.str "x"), ("b", Value.str "y")],
   [("a", Value.str "x")], [("a", Value.str "x")]]

/-- A 5-record batch in which exactly 2 records carry both fields a, b. -/
def batchTwoOfFive : List Record :=
  [[("a", Value.str "x"), ("b", Value.str "y")],
   [("a", Value.str "x"), ("b", Value.str "y")],
   [("a", Value.str "x")], [("a", Value.str "x")],
   [("a", Value.str "x")]]

/-- An example configuration with the defaults of `load_config`. -/
def exampleConfig : Config where
  base_url := "https://api.polygon.io"
  endpoint := "/v3/reference/tickers"
  params := [("active", Value.str "true"), ("limit", Value.int 100)]
  max_pages := 3
  target_records := 250
  base_delay := 1
  retry_tries := 3
  retry_backoff := 3/2
  required_fields := ["ticker", "name"]
  fields_to_keep := ["ticker", "name", "market", "locale", "primary_exchange"]
  dedupe_key_fields := ["ticker"]
  respect_rpm := 4

/-- One multiplier-mutating operation of a run: an `adjust_strategy` call,
the inline positive-feedback step of the collection loop, or a
`check_rate_limits` call. -/
inductive PacingStep where
  | adjust (sr : ℚ)
  | inline (sr : ℚ)
  | rateLimit (remaining : Option ℚ)

/-- Apply one multiplier-mutating operation. -/
def applyPacingStep (m : ℚ) : PacingStep → ℚ
  | PacingStep.adjust sr => adjust_strategy sr m
  | PacingStep.inline sr => inline_feedback sr m
  | PacingStep.rateLimit r => check_rate_limits r m

/-- The multiplier after a sequence of mutating operations, starting from
the initial `delay_multiplier = 1.0`. -/
def runPacing (steps : List PacingStep) : ℚ :=
  steps.foldl applyPacingStep 1

-- -------------------------
-- Bounds preservation lemmas for the pacing multiplier
-- -------------------------

theorem adjust_strategy_bounds {sr m : ℚ} (h₁ : 1/2 ≤ m) (h₂ : m ≤ 8) :
    1/2 ≤ adjust_strategy sr m ∧ adjust_strategy sr m ≤ 8 := by
  unfold adjust_strategy
  split
  · constructor
    · apply le_min <;> linarith
    · exact min_le_left _ _
  · split
    · constructor
      · apply le_min <;> linarith
      · calc min 4 (m * (3/2)) ≤ 4 := min_le_left _ _
          _ ≤ 8 := by norm_num
    · split
      · constructor
        · exact le_max_left _ _
        · apply max_le <;> linarith
      · exact ⟨h₁, h₂⟩

theorem inline_feedback_bounds {sr m : ℚ} (h₁ : 1/2 ≤ m) (h₂ : m ≤ 8) :
    1/2 ≤ inline_feedback sr m ∧ inline_feedback sr m ≤ 8 := by
  unfold inline_feedback
  split
  · constructor
    · exact le_max_left _ _
    · apply max_le <;> linarith
  · exact ⟨h₁, h₂⟩

theorem check_rate_limits_bounds {r : Option ℚ} {m : ℚ}
    (h₁ : 1/2 ≤ m) (h₂ : m ≤ 8) :
    1/2 ≤ check_rate_limits r m ∧ check_rate_limits r m ≤ 8 := by
  unfold check_rate_limits
  match r with
  | Option.none => exact ⟨h₁, h₂⟩
  | some x =>
    simp only
    split
    · constructor
      · apply le_min <;> linarith
      · exact min_le_left _ _
    · exact ⟨h₁, h₂⟩

theorem applyPacingStep_bounds {m : ℚ} (s : PacingStep)
    (h₁ : 1/2 ≤ m) (h₂ : m ≤ 8) :
    1/2 ≤ applyPacingStep m s ∧ applyPacingStep m s ≤ 8 := by
  cases s with
  | adjust sr => exact adjust_strategy_bounds h₁ h₂
  | inline sr => exact inline_feedback_bounds h₁ h₂
  | rateLimit r => exact check_rate_limits_bounds h₁ h₂

theorem foldl_pacing_bounds (steps : List PacingStep) {m : ℚ}
    (h₁ : 1/2 ≤ m) (h₂ : m ≤ 8) :
    1/2 ≤ steps.foldl applyPacingStep m ∧ steps.foldl applyPacingStep m ≤ 8 := by
  induction steps generalizing m with
  | nil => exact ⟨h₁, h₂⟩
  | cons s rest ih =>
    have hb := applyPacingStep_bounds s h₁ h₂
    exact ih hb.1 hb.2

/-- A counted fraction `ok / max 1 n` with `ok ≤ n` lies in `[0, 1]`. -/
theorem ratio_bounds {ok n : ℕ} (h : ok ≤ n) :
    0 ≤ (ok : ℚ) / max 1 (n : ℚ) ∧ (ok : ℚ) / max 1 (n : ℚ) ≤ 1 := by
  have hpos : (0 : ℚ) < max 1 (n : ℚ) :=
    lt_of_lt_of_le one_pos (le_max_left _ _)
  constructor
  · apply div_nonneg (by positivity) (le_of_lt hpos)
  · rw [div_le_one hpos]
    calc (ok : ℚ) ≤ (n : ℚ) := by exact_mod_cast h
      _ ≤ max 1 (n : ℚ) := le_max_right _ _

theorem check_completeness_bounds (required : List String)
    (store : List Record) :
    0 ≤ check_completeness required store ∧
      check_completeness required store ≤ 1 :=
  ratio_bounds (List.countP_le_length _)

theorem check_accuracy_bounds (store : List Record) :
    0 ≤ check_accuracy store ∧ check_accuracy store ≤ 1 :=
  ratio_bounds (List.countP_le_length _)

theorem check_consistency_bounds (store : List Record) :
    0 ≤ check_consistency store ∧ check_consistency store ≤ 1 :=
  ratio_bounds (List.countP_le_length _)

theorem store_step_seen_sub (digest : String → String) (kf : List String)
    (st : List String × List Record) (rec : Record) :
    st.1 ⊆ (store_step digest kf st rec).1 := by
  unfold store_step
  split
  · exact fun a ha => ha
  · exact fun a ha => List.mem_cons_of_mem _ ha

theorem store_data_seen_sub (digest : String → String) (kf : List String)
    (batch : List Record) (st : List String × List Record) :
    st.1 ⊆ (store_data digest kf st batch).1 := by
  induction batch generalizing st with
  | nil => exact fun a ha => ha
  | cons r rest ih =>
    intro a ha
    exact ih (store_step digest kf st r) (store_step_seen_sub digest kf st r ha)

theorem store_step_mem_seen (digest : String → String) (kf : List String)
    (st : List String × List Record) (rec : Record) :
    digest (dedupeKey kf rec) ∈ (store_step digest kf st rec).1 := by
  unfold store_step
  split
  · assumption
  · exact List.mem_cons_self _ _

theorem store_data_mem_seen (digest : String → String) (kf : List String)
    (batch : List Record) (st : List String × List Record) :
    ∀ rec ∈ batch, digest (dedupeKey kf rec) ∈ (store_data digest kf st batch).1 := by
  induction batch generalizing st with
  | nil => intro rec h; exact absurd h (List.not_mem_nil rec)
  | cons r rest ih =>
    intro rec h
    rcases List.mem_cons.mp h with rfl | hmem
    · exact store_data_seen_sub digest kf rest (store_step digest kf st rec)
        (store_step_mem_seen digest kf st rec)
    · exact ih (store_step digest kf st r) rec hmem

theorem store_data_eq_of_all_seen (digest : String → String) (kf : List String)
    (batch : List Record) (st : List String × List Record)
    (h : ∀ rec ∈ batch, digest (dedupeKey kf rec) ∈ st.1) :
    store_data digest kf st batch = st := by
  induction batch generalizing st with
  | nil => rfl
  | cons r rest ih =>
    have hstep : store_step digest kf st r = st := by
      unfold store_step
      rw [if_pos (h r (List.mem_cons_self r rest))]
    show store_data digest kf (store_step digest kf st r) rest = st
    rw [hstep]
    exact ih st (fun rec hrec => h rec (List.mem_cons_of_mem r hrec))

theorem store_data_idem (digest : String → String) (kf : List String)
    (st : List String × List Record) (batch : List Record) :
    store_data digest kf (store_data digest kf st batch) batch =
      store_data digest kf st batch :=
  store_data_eq_of_all_seen digest kf batch _
    (store_data_mem_seen digest kf batch st)

theorem store_step_inv (digest : String → String) (kf : List String)
    (st : List String × List Record) (rec : Record)
    (h : StoreInv digest kf st) :
    StoreInv digest kf (store_step digest kf st rec) := by
  unfold StoreInv at h ⊢
  unfold store_step
  by_cases hmem : digest (dedupeKey kf rec) ∈ st.1
  · rw [if_pos hmem]
    exact h
  · rw [if_neg hmem]
    constructor
    · show ((st.2 ++ [rec]).map _).Nodup
      rw [List.map_append]
      refine List.Nodup.append h.1 (List.nodup_singleton _) ?_
      intro a ha hb
      rw [List.mem_singleton.mp hb] at ha
      obtain ⟨r, hr, hfr⟩ := List.mem_map.mp ha
      have hfr' : digest (dedupeKey kf r) = digest (dedupeKey kf rec) := hfr
      exact hmem (hfr' ▸ h.2 r hr)
    · intro r hr
      rcases List.mem_append.mp hr with h1 | h2
      · exact List.mem_cons_of_mem _ (h.2 r h1)
      · rw [List.mem_singleton.mp h2]
        exact List.mem_cons_self _ _

theorem store_data_inv (digest : String → String) (kf : List String)
    (batch : List Record) (st : List String × List Record)
    (h : StoreInv digest kf st) :
    StoreInv digest kf (store_data digest kf st batch) := by
  induction batch generalizing st with
  | nil => exact h
  | cons r rest ih => exact ih _ (store_step_inv digest kf st r h)

theorem foldl_store_inv (digest : String → String) (kf : List String)
    (batches : List (List Record)) (st : List String × List Record)
    (h : StoreInv digest kf st) :
    StoreInv digest kf (batches.foldl (store_data digest kf) st) := by
  induction batches generalizing st with
  | nil => exact h
  | cons b rest ih => exact ih _ (store_data_inv digest kf b st h)

theorem runStore_inv (digest : String → String) (kf : List String)
    (batches : List (List Record)) :
    StoreInv digest kf (runStore digest kf batches) :=
  foldl_store_inv digest kf batches ([], [])
    ⟨List.nodup_nil, fun r hr => absurd hr (List.not_mem_nil r)⟩

theorem run_attempts_all_failed (l : List Outcome) (s : Stats)
    (h : ∀ o ∈ l, o.isFailure = true) :
    run_attempts l s =
      ({ s with failed_requests := s.failed_requests + l.length },
        Option.none) := by
  induction l generalizing s with
  | nil => simp [run_attempts]
  | cons o rest ih =>
    have hrest : ∀ x ∈ rest, x.isFailure = true :=
      fun x hx => h x (List.mem_cons_of_mem _ hx)
    cases o with
    | http429 =>
      show run_attempts rest _ = _
      rw [ih _ hrest]
      obtain ⟨a, b, c, d⟩ := s
      simp
      omega
    | httpError =>
      show run_attempts rest _ = _
      rw [ih _ hrest]
      obtain ⟨a, b, c, d⟩ := s
      simp
      omega
    | transportError =>
      show run_attempts rest _ = _
      rw [ih _ hrest]
      obtain ⟨a, b, c, d⟩ := s
      simp
      omega
    | successBadJson =>
      exact absurd (h _ (List.mem_cons_self _ _)) (by simp [Outcome.isFailure])
    | success p =>
      exact absurd (h _ (List.mem_cons_self _ _)) (by simp [Outcome.isFailure])

theorem run_attempts_total (l : List Outcome) (s : Stats) :
    (run_attempts l s).1.total_requests = s.total_requests := by
  induction l generalizing s with
  | nil => rfl
  | cons o rest ih => cases o <;> simp [run_attempts, ih]

theorem run_attempts_succ_le (l : List Outcome) (s : Stats) :
    s.successful_requests ≤ (run_attempts l s).1.successful_requests ∧
      (run_attempts l s).1.successful_requests ≤
        s.successful_requests + l.length := by
  induction l generalizing s with
  | nil => exact ⟨le_refl _, Nat.le_add_right _ _⟩
  | cons o rest ih =>
    obtain ⟨a, b, c, d⟩ := s
    cases o with
    | http429 =>
      simp only [run_attempts, List.length_cons]
      have h := ih ⟨a, b, c + 1, d⟩
      simp only [] at h
      omega
    | httpError =>
      simp only [run_attempts, List.length_cons]
      have h := ih ⟨a, b, c + 1, d⟩
      simp only [] at h
      omega
    | transportError =>
      simp only [run_attempts, List.length_cons]
      have h := ih ⟨a, b, c + 1, d⟩
      simp only [] at h
      omega
    | successBadJson =>
      simp only [run_attempts, List.length_cons]
      have h := ih ⟨a, b + 1, c + 1, d⟩
      simp only [] at h
      omega
    | success p =>
      simp only [run_attempts, List.length_cons]
      omega

theorem make_api_request_total (tries : ℕ) (outcomes : List Outcome)
    (s : Stats) :
    (make_api_request tries outcomes s).1.total_requests =
      s.total_requests + 1 := by
  unfold make_api_request
  exact run_attempts_total (outcomes.take tries) _

theorem make_api_request_succ_le (tries : ℕ) (outcomes : List Outcome)
    (s : Stats) :
    s.successful_requests ≤
        (make_api_request tries outcomes s).1.successful_requests ∧
      (make_api_request tries outcomes s).1.successful_requests ≤
        s.successful_requests + min tries outcomes.length := by
  unfold make_api_request
  have h := run_attempts_succ_le (outcomes.take tries)
    { s with total_requests := s.total_requests + 1 }
  rwa [List.length_take] at h

theorem dictGet_dictSet_self (d : List (String × Value)) (k : String)
    (v : Value) : dictGet (dictSet d k v) k = some v := by
  induction d with
  | nil => simp [dictSet, dictGet]
  | cons p rest ih =>
    unfold dictSet
    by_cases h : p.1 = k
    · rw [if_pos h]
      simp [dictGet]
    · rw [if_neg h]
      unfold dictGet
      rw [if_neg h]
      exact ih

theorem dictGet_dictSet_ne (d : List (String × Value)) (k k' : String)
    (v : Value) (h : k' ≠ k) :
    dictGet (dictSet d k v) k' = dictGet d k' := by
  induction d with
  | nil =>
    show dictGet [(k, v)] k' = dictGet [] k'
    unfold dictGet
    rw [if_neg (fun hkk => h hkk.symm)]
    rfl
  | cons p rest ih =>
    unfold dictSet
    by_cases hp : p.1 = k
    · rw [if_pos hp]
      unfold dictGet
      rw [if_neg (fun hkk => h hkk.symm),
        if_neg (fun hkk => h (hkk.symm.trans hp))]
    · rw [if_neg hp]
      unfold dictGet
      by_cases hk' : p.1 = k'
      · rw [if_pos hk', if_pos hk']
      · rw [if_neg hk', if_neg hk']
        exact ih

end Agent

-- -------------------------
-- CLAIM THEOREMS
-- -------------------------

namespace Claims

open Agent

/-- C1 (counterexample): the claim states that for `0.5 ≤ sr < 0.8` the new
multiplier is `min(8.0, m * 1.5)`; but at `m = 4.0`, `sr = 0.6` the code
yields `min(4.0, 6.0) = 4.0`, not `min(8.0, 6.0) = 6.0` — the code caps this
branch at 4.0, not 8.0. -/
theorem C1_counterexample :
    adjust_strategy (3/5) 4 = 4 ∧ min (8 : ℚ) (4 * (3/2)) = 6 ∧
      adjust_strategy (3/5) 4 ≠ min (8 : ℚ) (4 * (3/2)) := by
  refine ⟨?_, ?_, ?_⟩ <;> norm_num [adjust_strategy]

/-- C1 (amended): for every multiplier `m ∈ [0.5, 8.0]` and success rate
`sr` with `0.5 ≤ sr < 0.8`, `adjust_strategy` sets the new multiplier to
`min(4.0, m * 1.5)` — the 1.5× increase is capped at 4.0 (not 8.0). -/
theorem C1_amended (m sr : ℚ) (hm₁ : 1/2 ≤ m) (hm₂ : m ≤ 8)
    (hsr₁ : 1/2 ≤ sr) (hsr₂ : sr < 4/5) :
    adjust_strategy sr m = min 4 (m * (3/2)) := by
  unfold adjust_strategy
  rw [if_neg (by linarith), if_pos hsr₂]

/-- C1 witness: the amended claim at `m = 3`, `sr = 0.6`:
`adjust_strategy 0.6 3 = min 4 4.5 = 4`. -/
theorem C1_witness :
    adjust_strategy (3/5) 3 = min 4 ((3 : ℚ) * (3/2)) :=
  C1_amended 3 (3/5) (by norm_num) (by norm_num) (by norm_num) (by norm_num)

/-- C2: starting from the initial multiplier 1.0, after any sequence of
multiplier-mutating operations (adjust_strategy transitions, the loop's
inline 0.9× positive-feedback step, check_rate_limits 1.5× escalations),
the pacing multiplier stays in `[0.5, 8.0]`. -/
theorem C2_multiplier_always_clamped (steps : List PacingStep) :
    1/2 ≤ runPacing steps ∧ runPacing steps ≤ 8 :=
  foldl_pacing_bounds steps (by norm_num) (by norm_num)

/-- C3: `assess_data_quality` returns exactly 0.0 on an empty store; for
every store contents and configured required fields the result lies in
`[0, 1]`; timeliness is fixed at 1.0; and on a non-empty store the result
is the unweighted mean of the four metrics. -/
theorem C3_assess_quality_bounded (required : List String)
    (store : List Record) :
    assess_data_quality required [] = 0 ∧
    (0 ≤ assess_data_quality required store ∧
      assess_data_quality required store ≤ 1) ∧
    check_timeliness = 1 ∧
    (store.isEmpty = false →
      assess_data_quality required store =
        (check_completeness required store + check_accuracy store +
          check_consistency store + check_timeliness) / 4) := by
  refine ⟨rfl, ?_, rfl, ?_⟩
  · unfold assess_data_quality
    split
    · norm_num
    · have h₁ := check_completeness_bounds required store
      have h₂ := check_accuracy_bounds store
      have h₃ := check_consistency_bounds store
      unfold check_timeliness
      constructor <;> [linarith [h₁.1, h₂.1, h₃.1]; linarith [h₁.2, h₂.2, h₃.2]]
  · intro h
    unfold assess_data_quality
    rw [h]
    rfl

/-- C3 witness: the bounds and the mean decomposition evaluated on the
one-record store `[{ticker: AAPL, name: Apple}]` with the default
required fields. -/
theorem C3_witness :
    (0 ≤ assess_data_quality ["ticker", "name"]
        [[("ticker", Value.str "AAPL"), ("name", Value.str "Apple")]] ∧
      assess_data_quality ["ticker", "name"]
        [[("ticker", Value.str "AAPL"), ("name", Value.str "Apple")]] ≤ 1) ∧
    assess_data_quality ["ticker", "name"]
        [[("ticker", Value.str "AAPL"), ("name", Value.str "Apple")]] =
      (check_completeness ["ticker", "name"]
          [[("ticker", Value.str "AAPL"), ("name", Value.str "Apple")]] +
        check_accuracy [[("ticker", Value.str "AAPL"), ("name", Value.str "Apple")]] +
        check_consistency [[("ticker", Value.str "AAPL"), ("name", Value.str "Apple")]] +
        check_timeliness) / 4 :=
  ⟨(C3_assess_quality_bounded ["ticker", "name"]
      [[("ticker", Value.str "AAPL"), ("name", Value.str "Apple")]]).2.1,
   (C3_assess_quality_bounded ["ticker", "name"]
      [[("ticker", Value.str "AAPL"), ("name", Value.str "Apple")]]).2.2.2 rfl⟩

/-- The acceptance equivalence behind claim C4, for non-empty batches;
on the empty batch `validate_data` is false because the clamped
denominator `max(1, 0)` makes the computed ratio `0 < 0.6`. -/
theorem validate_data_iff (required : List String) (batch : List Record) :
    validate_data required batch = true ↔
      batch ≠ [] ∧ atLeastSixtyPercentValid required batch := by
  cases batch with
  | nil =>
    have h0 : validCount required [] = 0 := rfl
    constructor
    · intro hv
      unfold validate_data at hv
      rw [h0] at hv
      norm_num at hv
    · rintro ⟨h, -⟩
      exact absurd rfl h
  | cons r rest =>
    have hlen : (0 : ℚ) < (((r :: rest).length : ℕ) : ℚ) := by
      exact_mod_cast Nat.succ_pos rest.length
    have hmax : max (1 : ℚ) (((r :: rest).length : ℕ) : ℚ) =
        (((r :: rest).length : ℕ) : ℚ) := by
      apply max_eq_right
      exact_mod_cast Nat.succ_le_of_lt (Nat.succ_pos rest.length)
    unfold validate_data atLeastSixtyPercentValid
    rw [hmax, decide_eq_true_eq, le_div_iff₀ hlen]
    simp

/-- C4 (counterexample): on the empty batch the claim's criterion
"at least 60% of its records are valid" holds vacuously
(`0.6 · 0 ≤ 0`), yet `validate_data` returns `false` (the clamped
denominator makes the computed ratio 0 < 0.6), so the stated
"if and only if" fails at `required = [a, b]`, `batch = []`. -/
theorem C4_counterexample :
    validate_data ["a", "b"] [] = false ∧
      atLeastSixtyPercentValid ["a", "b"] [] := by
  constructor
  · rw [Bool.eq_false_iff]
    intro hv
    exact absurd rfl ((validate_data_iff ["a", "b"] []).mp hv).1
  · unfold atLeastSixtyPercentValid validCount
    norm_num

/-- C4 (amended): `validate_data` returns true iff the batch is non-empty
and at least 60% of its records have every configured required field
present and neither `None` nor the empty string (the empty batch is
rejected); in particular, with required fields `[a, b]`, a 5-record batch
with exactly 3 fully-populated records is accepted and one with exactly 2
is rejected. -/
theorem C4_amended (required : List String) (batch : List Record) :
    (validate_data required batch = true ↔
      batch ≠ [] ∧ atLeastSixtyPercentValid required batch) ∧
    validate_data ["a", "b"] batchThreeOfFive = true ∧
    validate_data ["a", "b"] batchTwoOfFive = false := by
  have hc3 : validCount ["a", "b"] batchThreeOfFive = 3 := by decide
  have hc2 : validCount ["a", "b"] batchTwoOfFive = 2 := by decide
  refine ⟨validate_data_iff required batch, ?_, ?_⟩
  · apply (validate_data_iff _ _).mpr
    refine ⟨by unfold batchThreeOfFive; exact List.cons_ne_nil _ _, ?_⟩
    unfold atLeastSixtyPercentValid
    rw [hc3]
    norm_num [batchThreeOfFive]
  · rw [Bool.eq_false_iff]
    intro hv
    have h2 := ((validate_data_iff _ _).mp hv).2
    unfold atLeastSixtyPercentValid at h2
    rw [hc2] at h2
    norm_num [batchTwoOfFive] at h2

/-- C4 witness: the amended equivalence instantiated on a concrete
accepted batch — 1 valid record out of 1. -/
theorem C4_witness :
    validate_data ["a"] [[("a", Value.str "x")]] = true ↔
      ([[("a", Value.str "x")]] : List Record) ≠ [] ∧
        atLeastSixtyPercentValid ["a"] [[("a", Value.str "x")]] :=
  (C4_amended ["a"] [[("a", Value.str "x")]]).1

/-- C6: `get_success_rate` returns 0.0 when `total_requests = 0` (the
division is guarded), and otherwise returns
`successful_requests / total_requests`. -/
theorem C6_success_rate_guarded (total successful : ℕ) :
    (total = 0 → get_success_rate total successful = 0) ∧
    (total ≠ 0 →
      get_success_rate total successful = (successful : ℚ) / (total : ℚ)) := by
  constructor
  · intro h
    simp [get_success_rate, h]
  · intro h
    simp [get_success_rate, h]

/-- C6 witness: at `total = 0`, `successful = 0` the rate is 0; at
`total = 4`, `successful = 3` it is 3/4. -/
theorem C6_witness :
    get_success_rate 0 0 = 0 ∧ get_success_rate 4 3 = (3 : ℚ) / 4 :=
  ⟨(C6_success_rate_guarded 0 0).1 rfl,
   (C6_success_rate_guarded 4 3).2 (by norm_num)⟩

/-- C5: `store_data` is idempotent — storing the same batch twice in
succession leaves the (seen digests, record store) state exactly as after
the first call, from any state — and after any sequence of `store_data`
calls from the initial empty state no two stored records have the same
digest of the pipe-joined dedupe key fields; both hold for every digest
function, hence in particular for SHA-256. -/
theorem C5_store_idempotent_digest_unique (digest : String → String)
    (keyFields : List String) (st : List String × List Record)
    (batch : List Record) (batches : List (List Record)) :
    store_data digest keyFields (store_data digest keyFields st batch) batch =
      store_data digest keyFields st batch ∧
    ((runStore digest keyFields batches).2.map
        (fun r => digest (dedupeKey keyFields r))).Nodup :=
  ⟨store_data_idem digest keyFields st batch,
   (runStore_inv digest keyFields batches).1⟩

/-- C7: `make_api_request` never raises on per-request failure: with
`tries = 3`, 429 on the first two attempts and success on the third yields
`successful_requests += 1`, `failed_requests += 2`, `pages_fetched += 1`
and returns the third response's parsed body; and when every attempt fails
(429, other non-2xx, or transport error) the call returns no data with
`failed_requests` incremented once per failed attempt, including the final
exhausted one. -/
theorem C7_retry_counters (s : Stats) (p : Payload) (tries : ℕ)
    (outcomes : List Outcome) (htries : tries ≤ outcomes.length)
    (hfail : ∀ o ∈ outcomes.take tries, o.isFailure = true) :
    make_api_request 3 [Outcome.http429, Outcome.http429, Outcome.success p] s =
      ({ s with total_requests := s.total_requests + 1,
                successful_requests := s.successful_requests + 1,
                failed_requests := s.failed_requests + 2,
                pages_fetched := s.pages_fetched + 1 }, some p) ∧
    make_api_request tries outcomes s =
      ({ s with total_requests := s.total_requests + 1,
                failed_requests := s.failed_requests + tries },
        Option.none) := by
  constructor
  · obtain ⟨a, b, c, d⟩ := s
    simp [make_api_request, run_attempts, List.take]
  · unfold make_api_request
    rw [run_attempts_all_failed (outcomes.take tries) _ hfail]
    rw [List.length_take, min_eq_left htries]

/-- C7 witness: the all-attempts-fail case at `tries = 3` with outcomes
transport error, 429, other non-2xx from the initial counters. -/
theorem C7_witness :
    make_api_request 3
        [Outcome.transportError, Outcome.http429, Outcome.httpError]
        initStats =
      ({ initStats with
          total_requests := initStats.total_requests + 1,
          failed_requests := initStats.failed_requests + 3 },
        Option.none) :=
  (C7_retry_counters initStats ⟨[], Option.none⟩ 3
    [Outcome.transportError, Outcome.http429, Outcome.httpError]
    (by norm_num)
    (by
      intro o ho
      simp only [List.take, List.mem_cons, List.not_mem_nil, or_false] at ho
      rcases ho with rfl | rfl | rfl <;> rfl)).2

/-- C8 (counterexample): the claim's pre-jitter formula
`max(base_delay, max(60/rpm, 0.5)) * m` for every positive rpm disagrees
with the code at `rpm = 0.05`: the code clamps the budget at 0.1 and
computes 600 seconds, the claimed formula gives 1200. -/
theorem C8_counterexample :
    pre_jitter_delay (1/20) 1 1 = 600 ∧
      claimed_pre_jitter_delay (1/20) 1 1 = 1200 ∧
      pre_jitter_delay (1/20) 1 1 ≠ claimed_pre_jitter_delay (1/20) 1 1 := by
  refine ⟨?_, ?_, ?_⟩ <;>
    norm_num [pre_jitter_delay, claimed_pre_jitter_delay,
      min_delay_from_rpm, max_def]

/-- C8 (amended): for every rpm budget at least 0.1 (the code clamps the
budget below by 0.1), the pre-jitter delay is
`max(base_delay, max(60/rpm, 0.5)) * m`; the slept duration is that delay
times the jitter factor, drawn from `[0.8, 1.3]`; and with `rpm = 4`,
`base_delay = 1.0`, `m = 1.0` the pre-jitter delay is 15.0 seconds and the
sleep lies in `[12.0, 19.5]`. -/
theorem C8_amended (rpm base_delay m jitter : ℚ) (hrpm : 1/10 ≤ rpm)
    (hj₁ : 4/5 ≤ jitter) (hj₂ : jitter ≤ 13/10) :
    pre_jitter_delay rpm base_delay m =
      claimed_pre_jitter_delay rpm base_delay m ∧
    final_sleep rpm base_delay m jitter =
      pre_jitter_delay rpm base_delay m * jitter ∧
    pre_jitter_delay 4 1 1 = 15 ∧
    12 ≤ final_sleep 4 1 1 jitter ∧ final_sleep 4 1 1 jitter ≤ 39/2 := by
  have h15 : pre_jitter_delay 4 1 1 = 15 := by
    norm_num [pre_jitter_delay, min_delay_from_rpm, max_def]
  have hsleep : final_sleep 4 1 1 jitter = 15 * jitter := by
    unfold final_sleep
    rw [h15]
  refine ⟨?_, rfl, h15, ?_, ?_⟩
  · unfold pre_jitter_delay claimed_pre_jitter_delay min_delay_from_rpm
    rw [max_eq_left hrpm]
  · rw [hsleep]; linarith
  · rw [hsleep]; linarith

/-- C8 witness: the amended claim at `rpm = 4`, `base_delay = 1`,
`m = 1`, `jitter = 1`. -/
theorem C8_witness :
    pre_jitter_delay 4 1 1 = claimed_pre_jitter_delay 4 1 1 ∧
    final_sleep 4 1 1 1 = pre_jitter_delay 4 1 1 * 1 ∧
    pre_jitter_delay 4 1 1 = 15 ∧
    12 ≤ final_sleep 4 1 1 1 ∧ final_sleep 4 1 1 1 ≤ 39/2 :=
  C8_amended 4 1 1 1 (by norm_num) (by norm_num) (by norm_num)

/-- C9: when the success rate is below 0.5 and the configured endpoint is
the sole configured endpoint `/v3/reference/tickers`, the fallback
adjustment triggered by `adjust_strategy` sets `params["limit"]` to
`max(25, old_limit // 2)`, leaves the endpoint unchanged, and modifies no
other configuration key. -/
theorem C9_fallback_frame (sr m : ℚ) (cfg : Config) (n : Int)
    (hsr : sr < 1/2)
    (hend : cfg.endpoint = "/v3/reference/tickers")
    (hlim : dictGet cfg.params "limit" = some (Value.int n)) :
    ∃ cfg', (adjust_strategy_full sr m cfg).2 = some cfg' ∧
      cfg'.endpoint = cfg.endpoint ∧
      dictGet cfg'.params "limit" =
        some (Value.int (max 25 (Int.fdiv n 2))) ∧
      (∀ k, k ≠ "limit" → dictGet cfg'.params k = dictGet cfg.params k) ∧
      cfg'.base_url = cfg.base_url ∧
      cfg'.max_pages = cfg.max_pages ∧
      cfg'.target_records = cfg.target_records ∧
      cfg'.base_delay = cfg.base_delay ∧
      cfg'.retry_tries = cfg.retry_tries ∧
      cfg'.retry_backoff = cfg.retry_backoff ∧
      cfg'.required_fields = cfg.required_fields ∧
      cfg'.fields_to_keep = cfg.fields_to_keep ∧
      cfg'.dedupe_key_fields = cfg.dedupe_key_fields ∧
      cfg'.respect_rpm = cfg.respect_rpm := by
  have hD : dictGetD cfg.params "limit" (Value.int 100) = Value.int n := by
    unfold dictGetD
    rw [hlim]
    rfl
  refine ⟨{ cfg with
      endpoint := "/v3/reference/tickers",
      params := dictSet cfg.params "limit"
        (Value.int (max 25 (Int.fdiv n 2))) }, ?_, ?_, ?_, ?_,
    rfl, rfl, rfl, rfl, rfl, rfl, rfl, rfl, rfl, rfl⟩
  · unfold adjust_strategy_full try_fallback_api
    rw [if_pos hsr, if_neg (by simp [hend]), hD]
    rfl
  · rw [hend]
  · exact dictGet_dictSet_self cfg.params "limit" _
  · intro k hk
    exact dictGet_dictSet_ne cfg.params "limit" k _ hk

/-- C9 witness: the fallback frame property at success rate 0 on the
default configuration (limit 100 halves to 50). -/
theorem C9_witness :
    ∃ cfg', (adjust_strategy_full 0 1 exampleConfig).2 = some cfg' ∧
      cfg'.endpoint = exampleConfig.endpoint ∧
      dictGet cfg'.params "limit" =
        some (Value.int (max 25 (Int.fdiv 100 2))) ∧
      (∀ k, k ≠ "limit" →
        dictGet cfg'.params k = dictGet exampleConfig.params k) ∧
      cfg'.base_url = exampleConfig.base_url ∧
      cfg'.max_pages = exampleConfig.max_pages ∧
      cfg'.target_records = exampleConfig.target_records ∧
      cfg'.base_delay = exampleConfig.base_delay ∧
      cfg'.retry_tries = exampleConfig.retry_tries ∧
      cfg'.retry_backoff = exampleConfig.retry_backoff ∧
      cfg'.required_fields = exampleConfig.required_fields ∧
      cfg'.fields_to_keep = exampleConfig.fields_to_keep ∧
      cfg'.dedupe_key_fields = exampleConfig.dedupe_key_fields ∧
      cfg'.respect_rpm = exampleConfig.respect_rpm :=
  C9_fallback_frame 0 1 exampleConfig 100 (by norm_num) rfl rfl

/-- C10 (counterexample): `successful_requests ≤ total_requests` is not an
invariant of `make_api_request`: a single call (tries = 2) whose first
attempt is a 2xx response with an unparsable JSON body — incrementing
`successful_requests` before `resp.json()` raises into the exception
handler — and whose second attempt fully succeeds leaves
`total_requests = 1` but `successful_requests = 2`, and the success rate
becomes 2.0 > 1. -/
theorem C10_counterexample :
    (runRequests [(2, [Outcome.successBadJson,
        Outcome.success ⟨[], Option.none⟩])]).total_requests = 1 ∧
    (runRequests [(2, [Outcome.successBadJson,
        Outcome.success ⟨[], Option.none⟩])]).successful_requests = 2 ∧
    ¬((runRequests [(2, [Outcome.successBadJson,
        Outcome.success ⟨[], Option.none⟩])]).successful_requests ≤
      (runRequests [(2, [Outcome.successBadJson,
        Outcome.success ⟨[], Option.none⟩])]).total_requests) ∧
    1 < get_success_rate
      (runRequests [(2, [Outcome.successBadJson,
        Outcome.success ⟨[], Option.none⟩])]).total_requests
      (runRequests [(2, [Outcome.successBadJson,
        Outcome.success ⟨[], Option.none⟩])]).successful_requests := by
  have h1 : (runRequests [(2, [Outcome.successBadJson,
      Outcome.success ⟨[], Option.none⟩])]).total_requests = 1 := rfl
  have h2 : (runRequests [(2, [Outcome.successBadJson,
      Outcome.success ⟨[], Option.none⟩])]).successful_requests = 2 := rfl
  refine ⟨h1, h2, ?_, ?_⟩
  · rw [h1, h2]
    norm_num
  · rw [h1, h2]
    unfold get_success_rate
    norm_num

/-- C10 (amended): every call to `make_api_request` increments
`total_requests` exactly once and `successful_requests` at most once per
attempt (so by at most `min tries outcomes.length` per call); but a 2xx
response whose body fails JSON parsing increments `successful_requests`
and then continues the retry loop, so a single call can increment
`successful_requests` more than once: there are runs where
`successful_requests` exceeds `total_requests` and the success rate
exceeds 1.0.  `failed_requests` is incremented once per failed attempt,
so there are runs where it exceeds `total_requests` and
`successful_requests + failed_requests ≠ total_requests`. -/
theorem C10_amended (tries : ℕ) (outcomes : List Outcome) (s : Stats) :
    ((make_api_request tries outcomes s).1.total_requests =
          s.total_requests + 1 ∧
      s.successful_requests ≤
          (make_api_request tries outcomes s).1.successful_requests ∧
      (make_api_request tries outcomes s).1.successful_requests ≤
          s.successful_requests + min tries outcomes.length) ∧
    (∃ cs : List (ℕ × List Outcome),
      (runRequests cs).total_requests < (runRequests cs).successful_requests ∧
      1 < get_success_rate (runRequests cs).total_requests
            (runRequests cs).successful_requests) ∧
    (∃ cs : List (ℕ × List Outcome),
      (runRequests cs).total_requests < (runRequests cs).failed_requests ∧
      (runRequests cs).successful_requests + (runRequests cs).failed_requests ≠
        (runRequests cs).total_requests) := by
  refine ⟨⟨make_api_request_total tries outcomes s,
      (make_api_request_succ_le tries outcomes s).1,
      (make_api_request_succ_le tries outcomes s).2⟩,
    ⟨[(2, [Outcome.successBadJson, Outcome.success ⟨[], Option.none⟩])],
      ?_, ?_⟩,
    ⟨[(3, [Outcome.transportError, Outcome.transportError,
        Outcome.transportError])], ?_, ?_⟩⟩
  · show (1 : ℕ) < 2
    norm_num
  · show 1 < get_success_rate 1 2
    unfold get_success_rate
    norm_num
  · show (1 : ℕ) < 3
    norm_num
  · show (0 : ℕ) + 3 ≠ 1
    norm_num

end Claims
